import Mathlib

/-!
Verification of the database connection manager of the xsignnew repository
(`server/db.ts`).  The manager owns a process-wide mutable pair of a
connection pool and a query client, initializes it with a bounded retry
loop, and exposes retrying query execution, a health check, an
asynchronous pool-error handler and a graceful shutdown.

The embedding is a state-passing translation of the TypeScript source.
External effects (constructing a pool, acquiring a connection, running a
query) are resolved by an oracle `Backing` indexed by a global call
counter, so a single model covers healthy stores, always-failing stores
and stores that fail a prefix of the calls.  Pool objects are identified
by the order of their construction (`nextPoolId`), which stands for
reference identity; the drizzle client wrapping a pool carries the same
identifier.  Wall-clock readings for the health check are passed in as
two integers taken from a monotone clock.
-/

namespace XSign

/-- An error raised by the backing store: a Postgres-style error `code`
(such as `57P01`, admin shutdown) and a human-readable message. -/
structure DbError where
  code : String
  msg : String
deriving DecidableEq, Repr

/-- Oracle for the backing store.  `connectRes k` is the outcome of the
`k`-th `connect()` call made in the process, `queryRes k` the outcome of
the `k`-th `client.query(...)` call. -/
structure Backing where
  connectRes : Nat → Except DbError Unit
  queryRes : Nat → Except DbError Unit

/-- The process-wide mutable state of `server/db.ts` plus an effect
trace.  `pool`, `db`, `connectionRetries` are the module-level variables
(`pool`/`db` hold the identifier of the stored pool, or `none` for
`null`).  `nextPoolId` supplies fresh pool identities; `poolsConstructed`
counts `new Pool(poolConfig)` evaluations; `connectCalls` / `queryCalls`
count the backing-store calls made so far (they also index the oracle);
`sleeps` records the argument of every `setTimeout` wait, in ms. -/
structure World where
  pool : Option Nat
  db : Option Nat
  connectionRetries : Nat
  nextPoolId : Nat
  poolsConstructed : Nat
  connectCalls : Nat
  queryCalls : Nat
  sleeps : List Nat
deriving DecidableEq, Repr

/-- The module state right after the variable declarations
(`let pool = null; let db = null; let connectionRetries = 0`). -/
def initialWorld : World :=
  { pool := none, db := none, connectionRetries := 0, nextPoolId := 0,
    poolsConstructed := 0, connectCalls := 0, queryCalls := 0, sleeps := [] }

/-- `const maxConnectionRetries = 3`. -/
def maxConnectionRetries : Nat := 3

/-- `const connectionRetryDelay = 1000`. -/
def connectionRetryDelay : Nat := 1000

/-- The error thrown after the retry loop falls through
(`throw new Error('Failed to initialize database after maximum retries')`). -/
def maxRetriesError : DbError :=
  { code := "", msg := "Failed to initialize database after maximum retries" }

/-- The retry loop of `initializeDatabase`
(`for (let attempt = 1; attempt <= maxConnectionRetries; attempt++)`).
`attempt` is the 1-based loop index, `fuel` the number of remaining loop
iterations (`maxConnectionRetries` at entry); `fuel = 0` is the fall-through
after the loop.  One iteration: construct a new pool, `connect()` on it,
run `SELECT NOW()`, release; on success store pool/db and reset
`connectionRetries`; on failure increment `connectionRetries`, and when
`attempt < maxConnectionRetries` wait `connectionRetryDelay * attempt` ms
and continue, otherwise rethrow the error. -/
def initGo (bk : Backing) (attempt fuel : Nat) (w : World) :
    Except DbError (Nat × Nat) × World :=
  match fuel with
  | 0 => (Except.error maxRetriesError, w)
  | fuel' + 1 =>
    let pid := w.nextPoolId
    let w1 : World := { w with nextPoolId := pid + 1,
                               poolsConstructed := w.poolsConstructed + 1 }
    let c := w1.connectCalls
    let w2 : World := { w1 with connectCalls := c + 1 }
    let tested : Except DbError Unit × World :=
      match bk.connectRes c with
      | Except.error e => (Except.error e, w2)
      | Except.ok _ =>
        let q := w2.queryCalls
        let w3 : World := { w2 with queryCalls := q + 1 }
        (bk.queryRes q, w3)
    match tested with
    | (Except.ok _, w3) =>
      (Except.ok (pid, pid),
       { w3 with pool := some pid, db := some pid, connectionRetries := 0 })
    | (Except.error e, w3) =>
      let w4 : World := { w3 with connectionRetries := w3.connectionRetries + 1 }
      if attempt < maxConnectionRetries then
        initGo bk (attempt + 1) fuel'
          { w4 with sleeps := w4.sleeps ++ [connectionRetryDelay * attempt] }
      else
        (Except.error e, w4)

/-- `initializeDatabase`: fast path `if (pool && db) return { pool, db }`,
otherwise the retry loop starting at attempt 1. -/
def initializeDatabase (bk : Backing) (w : World) :
    Except DbError (Nat × Nat) × World :=
  match w.pool, w.db with
  | some p, some d => (Except.ok (p, d), w)
  | _, _ => initGo bk 1 maxConnectionRetries w

/-- `getDb`: awaits `initializeDatabase` and returns its `db` half. -/
def getDb (bk : Backing) (w : World) : Except DbError Nat × World :=
  match initializeDatabase bk w with
  | (Except.ok r, w') => (Except.ok r.2, w')
  | (Except.error e, w') => (Except.error e, w')

/-- `getPool`: awaits `initializeDatabase` and returns its `pool` half. -/
def getPool (bk : Backing) (w : World) : Except DbError Nat × World :=
  match initializeDatabase bk w with
  | (Except.ok r, w') => (Except.ok r.1, w')
  | (Except.error e, w') => (Except.error e, w')

/-- Stand-in for `throw lastError` when the loop of `queryWithRetry`
falls through with `lastError === null` (only reachable with
`maxRetries = 0`). -/
def nullError : DbError := { code := "null", msg := "null" }

/-- The loop of `queryWithRetry`.  Each iteration awaits `getDb()` and
then the caller's operation (`op` is indexed by the 1-based attempt
number).  On failure: if `attempt < maxRetries && error.code === '57P01'`
wait `1000 * attempt` ms and retry, otherwise rethrow immediately.
`fuel` counts remaining iterations; `fuel = 0` is the fall-through
`throw lastError`. -/
def queryGo {T : Type} (bk : Backing) (op : Nat → Except DbError T)
    (maxRetries attempt fuel : Nat) (lastError : Option DbError) (w : World) :
    Except DbError T × World :=
  match fuel with
  | 0 => (Except.error (lastError.getD nullError), w)
  | fuel' + 1 =>
    let dbStep := getDb bk w
    let attemptRes : Except DbError T × World :=
      match dbStep with
      | (Except.error e, w1) => (Except.error e, w1)
      | (Except.ok _, w1) => (op attempt, w1)
    match attemptRes with
    | (Except.ok v, w2) => (Except.ok v, w2)
    | (Except.error e, w2) =>
      if attempt < maxRetries ∧ e.code = "57P01" then
        queryGo bk op maxRetries (attempt + 1) fuel' (some e)
          { w2 with sleeps := w2.sleeps ++ [1000 * attempt] }
      else
        (Except.error e, w2)

/-- `queryWithRetry(query, maxRetries = 3)`: run the loop from attempt 1
with `lastError = null`. -/
def queryWithRetry {T : Type} (bk : Backing) (op : Nat → Except DbError T)
    (maxRetries : Nat) (w : World) : Except DbError T × World :=
  queryGo bk op maxRetries 1 maxRetries none w

/-- The result shape of `checkDatabaseHealth`:
`{ healthy: boolean; latency?: number; error?: string }` (both return
sites populate `latency`). -/
structure HealthResult where
  healthy : Bool
  latency : Int
  error : Option String
deriving DecidableEq, Repr

/-- The `try` block of `checkDatabaseHealth`: resolve `getDb()`, then
`getPool()`, check out a connection, run `SELECT 1`, release. -/
def healthProbe (bk : Backing) (w : World) : Except DbError Unit × World :=
  match getDb bk w with
  | (Except.error e, w1) => (Except.error e, w1)
  | (Except.ok _, w1) =>
    match getPool bk w1 with
    | (Except.error e, w2) => (Except.error e, w2)
    | (Except.ok _, w2) =>
      let c := w2.connectCalls
      let w3 : World := { w2 with connectCalls := c + 1 }
      match bk.connectRes c with
      | Except.error e => (Except.error e, w3)
      | Except.ok _ =>
        let q := w3.queryCalls
        let w4 : World := { w3 with queryCalls := q + 1 }
        (bk.queryRes q, w4)

/-- `checkDatabaseHealth`: records `startTime`, then runs the probe
inside a `try`; the success branch returns `{healthy: true, latency}`;
the `catch` branch returns `{healthy: false, error: message, latency}`.
`t0`/`t1` are the two `Date.now()` readings (start, and end or failure
time). -/
def checkDatabaseHealth (bk : Backing) (t0 t1 : Int) (w : World) :
    HealthResult × World :=
  match healthProbe bk w with
  | (Except.ok _, w') =>
    ({ healthy := true, latency := t1 - t0, error := none }, w')
  | (Except.error e, w') =>
    ({ healthy := false, latency := t1 - t0, error := some e.msg }, w')

/-- `handlePoolError`: logs the fault; when
`process.env.NODE_ENV === 'production'` it sets `pool = null; db = null`
and fires `initializeDatabase().catch(...)` in the background (the
rejection is caught and logged, so the handler itself returns normally
whatever the reinitialization does); otherwise it does nothing further. -/
def handlePoolError (bk : Backing) (isProduction : Bool) (w : World) : World :=
  if isProduction then
    (initializeDatabase bk { w with pool := none, db := none }).2
  else
    w

/-- `gracefulShutdown`: inside a `try`, if a pool exists `await pool.end()`
then clear `pool` and `db`; any error from `end()` is caught and logged
(in which case the clearing assignments are not reached).  `endRes` is the
outcome of `pool.end()`. -/
def gracefulShutdown (endRes : Except DbError Unit) (w : World) : World :=
  match w.pool with
  | none => w
  | some _ =>
    match endRes with
    | Except.ok _ => { w with pool := none, db := none }
    | Except.error _ => w

/-- The error thrown at module top level when `process.env.DATABASE_URL`
is not set. -/
def databaseUrlMissingError : DbError :=
  { code := "",
    msg := "DATABASE_URL must be set. Did you forget to provision a database? in Vercel, make sure to add it to Environment Variables." }

/-- Evaluation of the `server/db.ts` module body: check
`process.env.DATABASE_URL` and throw if absent; otherwise declare the
state variables and immediately run `initializeDatabase().catch(...)`
(the comment in the source reads `// Initialize database immediately`);
the rejection of that eager call is swallowed by the `.catch`. -/
def moduleLoad (databaseUrl : Option String) (bk : Backing) :
    Except DbError World :=
  match databaseUrl with
  | none => Except.error databaseUrlMissingError
  | some _ => Except.ok (initializeDatabase bk initialWorld).2

/-- A backing store whose every connect and every query succeeds. -/
def healthyBk : Backing :=
  { connectRes := fun _ => Except.ok (), queryRes := fun _ => Except.ok () }

/-- A connection-refused style error, used for concrete runs. -/
def refusedError : DbError :=
  { code := "ECONNREFUSED", msg := "connect ECONNREFUSED" }

/-- A backing store whose every connect fails with `ECONNREFUSED`. -/
def failBk : Backing :=
  { connectRes := fun _ => Except.error refusedError,
    queryRes := fun _ => Except.error refusedError }

/-- Outcome of one retry-loop iteration as seen by the oracle when the
connect counter stands at `c` and the query counter at `q`: the connect
error if the connect fails, otherwise the liveness-query result. -/
def oneAttempt (bk : Backing) (c q : Nat) : Except DbError Unit :=
  match bk.connectRes c with
  | Except.error e => Except.error e
  | Except.ok _ => bk.queryRes q

/-- How the two oracle counters advance across one retry-loop iteration
starting at `(c, q)`: the connect counter always advances; the query
counter advances only when the connect succeeded. -/
def nextCounters (bk : Backing) (c q : Nat) : Nat × Nat :=
  (c + 1, q + (if (bk.connectRes c).isOk then 1 else 0))

/-- The world after a successful retry-loop iteration: one more pool
constructed, one connect and one query consumed, the fresh pool stored
in `pool`/`db`, `connectionRetries` reset. -/
def successWorld (w : World) : World :=
  { w with pool := some w.nextPoolId, db := some w.nextPoolId,
           connectionRetries := 0,
           nextPoolId := w.nextPoolId + 1,
           poolsConstructed := w.poolsConstructed + 1,
           connectCalls := w.connectCalls + 1,
           queryCalls := w.queryCalls + 1 }

/-- The world after a failed retry-loop iteration: one more pool
constructed, the oracle counters advanced, the retry counter
incremented (any backoff wait is recorded separately). -/
def failWorld (bk : Backing) (w : World) : World :=
  { w with nextPoolId := w.nextPoolId + 1,
           poolsConstructed := w.poolsConstructed + 1,
           connectCalls := w.connectCalls + 1,
           queryCalls := w.queryCalls
             + (if (bk.connectRes w.connectCalls).isOk then 1 else 0),
           connectionRetries := w.connectionRetries + 1 }

/-- The result of the first retry-loop iteration of a run started at `w`. -/
def attempt1Res (bk : Backing) (w : World) : Except DbError Unit :=
  oneAttempt bk w.connectCalls w.queryCalls

/-- Oracle counters at the start of the second iteration. -/
def counters2 (bk : Backing) (w : World) : Nat × Nat :=
  nextCounters bk w.connectCalls w.queryCalls

/-- The result of the second retry-loop iteration. -/
def attempt2Res (bk : Backing) (w : World) : Except DbError Unit :=
  oneAttempt bk (counters2 bk w).1 (counters2 bk w).2

/-- Oracle counters at the start of the third iteration. -/
def counters3 (bk : Backing) (w : World) : Nat × Nat :=
  nextCounters bk (counters2 bk w).1 (counters2 bk w).2

/-- The result of the third retry-loop iteration. -/
def attempt3Res (bk : Backing) (w : World) : Except DbError Unit :=
  oneAttempt bk (counters3 bk w).1 (counters3 bk w).2

theorem initGo_succ_of_ok (bk : Backing) (a f : Nat) (w : World)
    (h : oneAttempt bk w.connectCalls w.queryCalls = Except.ok ()) :
    initGo bk a (f + 1) w
      = (Except.ok (w.nextPoolId, w.nextPoolId), successWorld w) := by
  obtain ⟨pl, dbv, cr, np, pc, cc, qc, sl⟩ := w
  rcases h1 : bk.connectRes cc with e1 | u1
  · simp [oneAttempt, h1] at h
  · cases u1
    rcases h2 : bk.queryRes qc with e2 | u2
    · simp [oneAttempt, h1, h2] at h
    · cases u2
      simp [initGo, successWorld, h1, h2]

theorem initGo_retry_of_error (bk : Backing) (a f : Nat) (w : World)
    (e : DbError) (ha : a < maxConnectionRetries)
    (h : oneAttempt bk w.connectCalls w.queryCalls = Except.error e) :
    initGo bk a (f + 1) w
      = initGo bk (a + 1) f
          { failWorld bk w with
              sleeps := w.sleeps ++ [connectionRetryDelay * a] } := by
  obtain ⟨pl, dbv, cr, np, pc, cc, qc, sl⟩ := w
  rcases h1 : bk.connectRes cc with e1 | u1
  · simp only [oneAttempt, h1] at h
    injection h with h
    subst h
    simp [initGo, failWorld, Except.isOk, Except.toBool, h1, ha]
  · cases u1
    rcases h2 : bk.queryRes qc with e2 | u2
    · simp only [oneAttempt, h1, h2] at h
      injection h with h
      subst h
      simp [initGo, failWorld, Except.isOk, Except.toBool, h1, h2, ha]
    · simp [oneAttempt, h1, h2] at h

theorem initGo_fatal_of_error (bk : Backing) (a f : Nat) (w : World)
    (e : DbError) (ha : ¬ a < maxConnectionRetries)
    (h : oneAttempt bk w.connectCalls w.queryCalls = Except.error e) :
    initGo bk a (f + 1) w = (Except.error e, failWorld bk w) := by
  obtain ⟨pl, dbv, cr, np, pc, cc, qc, sl⟩ := w
  rcases h1 : bk.connectRes cc with e1 | u1
  · simp only [oneAttempt, h1] at h
    injection h with h
    subst h
    simp [initGo, failWorld, Except.isOk, Except.toBool, h1, ha]
  · cases u1
    rcases h2 : bk.queryRes qc with e2 | u2
    · simp only [oneAttempt, h1, h2] at h
      injection h with h
      subst h
      simp [initGo, failWorld, Except.isOk, Except.toBool, h1, h2, ha]
    · simp [oneAttempt, h1, h2] at h

theorem attempt2Res_as_attempt1 (bk : Backing) (w : World) :
    attempt1Res bk (failWorld bk w) = attempt2Res bk w := rfl

theorem attempt3Res_as_attempt1 (bk : Backing) (w : World) :
    attempt1Res bk (failWorld bk (failWorld bk w)) = attempt3Res bk w := rfl

/-- Fast path of `initializeDatabase`: with `pool` and `db` both set, the
stored pair is returned and nothing is touched. -/
theorem initializeDatabase_of_some (bk : Backing) (w : World) (p d : Nat)
    (hp : w.pool = some p) (hd : w.db = some d) :
    initializeDatabase bk w = (Except.ok (p, d), w) := by
  simp [initializeDatabase, hp, hd]

theorem getDb_of_some (bk : Backing) (w : World) (p d : Nat)
    (hp : w.pool = some p) (hd : w.db = some d) :
    getDb bk w = (Except.ok d, w) := by
  simp [getDb, initializeDatabase_of_some bk w p d hp hd]

theorem getPool_of_some (bk : Backing) (w : World) (p d : Nat)
    (hp : w.pool = some p) (hd : w.db = some d) :
    getPool bk w = (Except.ok p, w) := by
  simp [getPool, initializeDatabase_of_some bk w p d hp hd]

/-- The retry loop never assigns `pool`/`db` on a run that ends in an
error: every error exit leaves both fields as they were. -/
theorem initGo_error_frame (bk : Backing) :
    ∀ fuel attempt (w : World) (e : DbError) (w' : World),
      initGo bk attempt fuel w = (Except.error e, w') →
      w'.pool = w.pool ∧ w'.db = w.db := by
  intro fuel
  induction fuel with
  | zero =>
    intro attempt w e w' h
    simp only [initGo] at h
    injection h with he hw
    subst hw
    exact ⟨rfl, rfl⟩
  | succ f ih =>
    intro attempt w e w' h
    obtain ⟨pl, dbv, cr, np, pc, cc, qc, sl⟩ := w
    rcases h1 : bk.connectRes cc with e1 | u1
    · simp only [initGo, h1] at h
      by_cases ha : attempt < maxConnectionRetries
      · rw [if_pos ha] at h
        have hres := ih _ _ _ _ h
        exact hres
      · rw [if_neg ha] at h
        injection h with he hw
        subst hw
        exact ⟨rfl, rfl⟩
    · cases u1
      rcases h2 : bk.queryRes qc with e2 | u2
      · simp only [initGo, h1, h2] at h
        by_cases ha : attempt < maxConnectionRetries
        · rw [if_pos ha] at h
          have hres := ih _ _ _ _ h
          exact hres
        · rw [if_neg ha] at h
          injection h with he hw
          subst hw
          exact ⟨rfl, rfl⟩
      · cases u2
        simp only [initGo, h1, h2] at h
        injection h with he hw
        exact Except.noConfusion he

/-- A retry loop run against a store whose connects all fail leaves the
`pool` and `db` fields untouched, whatever it returns. -/
theorem initGo_connectFail_frame (bk : Backing)
    (hfail : ∀ k, (bk.connectRes k).isOk = false) :
    ∀ fuel attempt (w : World),
      (initGo bk attempt fuel w).2.pool = w.pool ∧
      (initGo bk attempt fuel w).2.db = w.db := by
  intro fuel
  induction fuel with
  | zero => intro attempt w; exact ⟨rfl, rfl⟩
  | succ f ih =>
    intro attempt w
    obtain ⟨pl, dbv, cr, np, pc, cc, qc, sl⟩ := w
    rcases h1 : bk.connectRes cc with e1 | u1
    · by_cases ha : attempt < maxConnectionRetries
      · simp only [initGo, h1, if_pos ha]
        exact ih _ _
      · simp [initGo, h1, if_neg ha]
    · have hbad := hfail cc
      rw [h1] at hbad
      simp [Except.isOk, Except.toBool] at hbad

/-- The world after the eager module-load initialization against a
healthy store: one pool (identity 0) constructed, one liveness query
run, the pair stored. -/
def firstInitWorld : World :=
  { pool := some 0, db := some 0, connectionRetries := 0, nextPoolId := 1,
    poolsConstructed := 1, connectCalls := 1, queryCalls := 1, sleeps := [] }

/-- A world holding a valid stored pair (pool identity 0), as left by a
successful first initialization of a fresh process, with no trace. -/
def readyWorld : World := { initialWorld with pool := some 0, db := some 0 }

/-- Claim C3: when a valid pool/client pair is already stored,
`initializeDatabase` returns exactly that pair and leaves the state
untouched (no pool construction, no query, no wait), so a second
sequential call after a successful one returns the identical references;
`getDb` and `getPool` go through `initializeDatabase` and return the
client half and the pool half of that same pair. -/
theorem claim_C3_idempotent_fast_path (bk : Backing) (w : World) (p d : Nat)
    (hp : w.pool = some p) (hd : w.db = some d) :
    initializeDatabase bk w = (Except.ok (p, d), w) ∧
    getDb bk w = (Except.ok d, w) ∧
    getPool bk w = (Except.ok p, w) :=
  ⟨initializeDatabase_of_some bk w p d hp hd,
   getDb_of_some bk w p d hp hd,
   getPool_of_some bk w p d hp hd⟩

/-- Concrete run of the C3 theorem: a stored pair is returned untouched
even against a store that refuses every connection. -/
theorem claim_C3_witness :
    initializeDatabase failBk readyWorld = (Except.ok (0, 0), readyWorld) ∧
    getDb failBk readyWorld = (Except.ok 0, readyWorld) ∧
    getPool failBk readyWorld = (Except.ok 0, readyWorld) :=
  claim_C3_idempotent_fast_path failBk readyWorld 0 0 rfl rfl

/-- Claim C5: an asynchronous pool fault in non-production mode leaves
the stored state completely unchanged; in production mode the stored
pair is cleared and a background reinitialization is started from the
cleared state, whose failure is never raised (the handler returns a
state, not an error — with a store that keeps refusing connections the
state simply stays cleared). -/
theorem claim_C5_pool_error_policy (bk : Backing) (w : World) :
    handlePoolError bk false w = w ∧
    handlePoolError bk true w
      = (initializeDatabase bk { w with pool := none, db := none }).2 ∧
    ((∀ k, (bk.connectRes k).isOk = false) →
      (handlePoolError bk true w).pool = none ∧
      (handlePoolError bk true w).db = none) := by
  refine ⟨rfl, rfl, ?_⟩
  intro hfail
  have hframe := initGo_connectFail_frame bk hfail maxConnectionRetries 1
    { w with pool := none, db := none }
  exact ⟨hframe.1, hframe.2⟩

/-- Concrete run of the C5 theorem: with an always-refusing store, a
production-mode pool fault clears the stored pair and the failed
background reinitialization leaves it cleared; a non-production fault
changes nothing. -/
theorem claim_C5_witness :
    handlePoolError failBk false readyWorld = readyWorld ∧
    (handlePoolError failBk true readyWorld).pool = none ∧
    (handlePoolError failBk true readyWorld).db = none := by
  have h := claim_C5_pool_error_policy failBk readyWorld
  exact ⟨h.1, (h.2.2 (fun _ => rfl)).1, (h.2.2 (fun _ => rfl)).2⟩

/-- Claim C7: `gracefulShutdown` closes and clears an existing pool;
when no pool is stored it is a no-op for any outcome of `end()`, so a
second call after a successful one, or a call on a never-initialized
process, completes without error and leaves the state cleared. -/
theorem claim_C7_shutdown_idempotent (w : World) (r : Except DbError Unit) :
    (∀ p, w.pool = some p →
      gracefulShutdown (Except.ok ()) w = { w with pool := none, db := none }) ∧
    (w.pool = none → gracefulShutdown r w = w) ∧
    gracefulShutdown r (gracefulShutdown (Except.ok ()) w)
      = gracefulShutdown (Except.ok ()) w ∧
    gracefulShutdown r initialWorld = initialWorld := by
  obtain ⟨pl, dbv, cr, np, pc, cc, qc, sl⟩ := w
  cases pl <;> simp [gracefulShutdown, initialWorld]

/-- Concrete run of the C7 theorem: shutting down a live pool clears the
state, and shutting down a never-initialized state is a no-op. -/
theorem claim_C7_witness :
    gracefulShutdown (Except.ok ()) readyWorld = initialWorld ∧
    gracefulShutdown (Except.ok ()) initialWorld = initialWorld := by
  have h := claim_C7_shutdown_idempotent readyWorld (Except.ok ())
  have h0 := claim_C7_shutdown_idempotent initialWorld (Except.ok ())
  exact ⟨h.1 0 rfl, h0.2.1 rfl⟩

/-- Claim C9: with `DATABASE_URL` absent the module throws the fatal
configuration error during load, identically for every backing store —
no connection is attempted and no retry happens, and since loading
fails no state is produced for any public operation to run against. -/
theorem claim_C9_missing_database_url (bk : Backing) :
    moduleLoad none bk = Except.error databaseUrlMissingError := rfl

/-- Claim C10 (counterexample): a failed `initializeDatabase` run does
not leave the stored ConnectionState "exactly what it was before the
call": with a store that refuses every connection, the retry counter
field of the state goes from 0 to 3. -/
theorem claim_C10_counterexample :
    (initializeDatabase failBk initialWorld).1 = Except.error refusedError ∧
    initialWorld.connectionRetries = 0 ∧
    (initializeDatabase failBk initialWorld).2.connectionRetries = 3 :=
  ⟨rfl, rfl, rfl⟩

/-- Claim C10 (amended): whenever `initializeDatabase` raises, the
`pool` and `db` fields are exactly what they were before the call —
they are never assigned from a partially constructed or untested pool;
only the retry counter (and the effect trace) changes. -/
theorem claim_C10_error_frame (bk : Backing) (w : World) (e : DbError)
    (w' : World) (h : initializeDatabase bk w = (Except.error e, w')) :
    w'.pool = w.pool ∧ w'.db = w.db := by
  rcases hpl : w.pool with _ | p <;> rcases hdb : w.db with _ | d
  · simp only [initializeDatabase, hpl, hdb] at h
    have hframe := initGo_error_frame bk _ _ _ _ _ h
    exact ⟨hframe.1.trans hpl, hframe.2.trans hdb⟩
  · simp only [initializeDatabase, hpl, hdb] at h
    have hframe := initGo_error_frame bk _ _ _ _ _ h
    exact ⟨hframe.1.trans hpl, hframe.2.trans hdb⟩
  · simp only [initializeDatabase, hpl, hdb] at h
    have hframe := initGo_error_frame bk _ _ _ _ _ h
    exact ⟨hframe.1.trans hpl, hframe.2.trans hdb⟩
  · simp only [initializeDatabase, hpl, hdb] at h
    injection h with he hw
    exact Except.noConfusion he

/-- Concrete run of the C10 amended theorem: the exhausted run against
an always-refusing store leaves `pool` and `db` as they were. -/
theorem claim_C10_witness :
    (initializeDatabase failBk initialWorld).2.pool = initialWorld.pool ∧
    (initializeDatabase failBk initialWorld).2.db = initialWorld.db :=
  claim_C10_error_frame failBk initialWorld refusedError
    (initializeDatabase failBk initialWorld).2 rfl

/-- Claim C8 (counterexample): the connection state is NOT created
lazily on first public access: evaluating the module body itself — the
source comment reads `// Initialize database immediately` — already
constructs a pool, runs the liveness query and stores the pair, before
any public operation has been called. -/
theorem claim_C8_counterexample :
    moduleLoad (some "postgres://example") healthyBk
      = Except.ok firstInitWorld ∧
    firstInitWorld.poolsConstructed = 1 ∧
    firstInitWorld.queryCalls = 1 ∧
    firstInitWorld.pool = some 0 :=
  ⟨rfl, rfl, rfl, rfl⟩

/-- Claim C8 (amended): initialization is eager, not lazy: module load
itself runs `initializeDatabase()` in the background, so with a healthy
backing store the pool is constructed, the liveness query issued and
the pair stored already at load time; the public operations then reuse
that stored pair without further construction. -/
theorem claim_C8_eager_initialization (bk : Backing) (url : String)
    (w : World) (h : moduleLoad (some url) bk = Except.ok w)
    (hc : ∀ k, bk.connectRes k = Except.ok ())
    (hq : ∀ k, bk.queryRes k = Except.ok ()) :
    w = firstInitWorld ∧
    getDb bk w = (Except.ok 0, w) ∧
    getPool bk w = (Except.ok 0, w) := by
  have ho : oneAttempt bk initialWorld.connectCalls initialWorld.queryCalls
      = Except.ok () := by
    simp [oneAttempt, initialWorld, hc, hq]
  have hrun : initializeDatabase bk initialWorld
      = (Except.ok (0, 0), firstInitWorld) := by
    have hstep := initGo_succ_of_ok bk 1 2 initialWorld ho
    rw [show initializeDatabase bk initialWorld
          = initGo bk 1 maxConnectionRetries initialWorld from rfl]
    rw [show maxConnectionRetries = 2 + 1 from rfl]
    rw [hstep]
    exact rfl
  simp only [moduleLoad, hrun] at h
  injection h with hw
  subst hw
  exact ⟨rfl,
    getDb_of_some bk firstInitWorld 0 0 rfl rfl,
    getPool_of_some bk firstInitWorld 0 0 rfl rfl⟩

/-- Concrete run of the C8 amended theorem at a healthy store. -/
theorem claim_C8_witness :
    firstInitWorld = firstInitWorld ∧
    getDb healthyBk firstInitWorld = (Except.ok 0, firstInitWorld) ∧
    getPool healthyBk firstInitWorld = (Except.ok 0, firstInitWorld) :=
  claim_C8_eager_initialization healthyBk "postgres://example" firstInitWorld
    rfl (fun _ => rfl) (fun _ => rfl)

/-- Claim C4: `checkDatabaseHealth` never raises: for every backing
store and state it returns a structured result whose latency field is
the elapsed time between the two clock readings — non-negative for a
monotone clock.  When the probe (pool resolution, connection
acquisition, liveness query) succeeds the result is exactly
`{healthy: true, latency, error: none}`; when the probe fails at any of
those steps the result is exactly `{healthy: false, latency, error:
message-of-the-failure}` — the failing step's message is in the error
field and the latency is still populated. -/
theorem claim_C4_health_never_throws (bk : Backing) (t0 t1 : Int)
    (w : World) (ht : t0 ≤ t1) :
    (checkDatabaseHealth bk t0 t1 w).1.latency = t1 - t0 ∧
    0 ≤ (checkDatabaseHealth bk t0 t1 w).1.latency ∧
    (∀ u w2, healthProbe bk w = (Except.ok u, w2) →
      checkDatabaseHealth bk t0 t1 w
        = ({ healthy := true, latency := t1 - t0, error := none }, w2)) ∧
    (∀ e w2, healthProbe bk w = (Except.error e, w2) →
      checkDatabaseHealth bk t0 t1 w
        = ({ healthy := false, latency := t1 - t0,
             error := some e.msg }, w2)) := by
  have h0 : (0 : Int) ≤ t1 - t0 := sub_nonneg.mpr ht
  rcases hpro : healthProbe bk w with ⟨res, w2⟩
  cases res with
  | ok u =>
    have hch : checkDatabaseHealth bk t0 t1 w
        = ({ healthy := true, latency := t1 - t0, error := none }, w2) := by
      simp [checkDatabaseHealth, hpro]
    refine ⟨by rw [hch], by rw [hch]; exact h0, ?_, ?_⟩
    · intro u2 w3 h2
      injection h2 with he hw
      subst hw
      exact hch
    · intro e2 w3 h2
      injection h2 with he hw
      exact Except.noConfusion he
  | error e =>
    have hch : checkDatabaseHealth bk t0 t1 w
        = ({ healthy := false, latency := t1 - t0,
             error := some e.msg }, w2) := by
      simp [checkDatabaseHealth, hpro]
    refine ⟨by rw [hch], by rw [hch]; exact h0, ?_, ?_⟩
    · intro u2 w3 h2
      injection h2 with he hw
      exact Except.noConfusion he
    · intro e2 w3 h2
      injection h2 with he hw
      injection he with hee
      subst hee
      subst hw
      exact hch

/-- Concrete run of the C4 theorem: against an always-refusing store the
probe fails, and the health check returns unhealthy with that failure's
message in the error field and the elapsed time populated, instead of
raising. -/
theorem claim_C4_witness :
    checkDatabaseHealth failBk 5 12 initialWorld
      = ({ healthy := false, latency := 12 - 5,
           error := some "connect ECONNREFUSED" },
         { pool := none, db := none, connectionRetries := 3, nextPoolId := 3,
           poolsConstructed := 3, connectCalls := 3, queryCalls := 0,
           sleeps := [1000, 2000] }) ∧
    0 ≤ (checkDatabaseHealth failBk 5 12 initialWorld).1.latency :=
  have h := claim_C4_health_never_throws failBk 5 12 initialWorld (by decide)
  ⟨h.2.2.2 refusedError
      { pool := none, db := none, connectionRetries := 3, nextPoolId := 3,
        poolsConstructed := 3, connectCalls := 3, queryCalls := 0,
        sleeps := [1000, 2000] } rfl,
   h.2.1⟩

theorem queryGo_ok {T : Type} (bk : Backing) (op : Nat → Except DbError T)
    (maxR a f : Nat) (lastE : Option DbError) (w : World) (p d : Nat)
    (v : T) (hp : w.pool = some p) (hd : w.db = some d)
    (hop : op a = Except.ok v) :
    queryGo bk op maxR a (f + 1) lastE w = (Except.ok v, w) := by
  simp [queryGo, getDb_of_some bk w p d hp hd, hop]

theorem queryGo_stop {T : Type} (bk : Backing) (op : Nat → Except DbError T)
    (maxR a f : Nat) (lastE : Option DbError) (w : World) (p d : Nat)
    (e : DbError) (hp : w.pool = some p) (hd : w.db = some d)
    (hop : op a = Except.error e)
    (hcond : ¬ (a < maxR ∧ e.code = "57P01")) :
    queryGo bk op maxR a (f + 1) lastE w = (Except.error e, w) := by
  simp [queryGo, getDb_of_some bk w p d hp hd, hop, hcond]

theorem queryGo_retry {T : Type} (bk : Backing) (op : Nat → Except DbError T)
    (maxR a f : Nat) (lastE : Option DbError) (w : World) (p d : Nat)
    (e : DbError) (hp : w.pool = some p) (hd : w.db = some d)
    (hop : op a = Except.error e)
    (hcond : a < maxR ∧ e.code = "57P01") :
    queryGo bk op maxR a (f + 1) lastE w
      = queryGo bk op maxR (a + 1) f (some e)
          { w with sleeps := w.sleeps ++ [1000 * a] } := by
  simp [queryGo, getDb_of_some bk w p d hp hd, hop, hcond]

/-- Claim C2: with a stored pool/client pair, `queryWithRetry` with the
default budget of 3: returns the result of any successful attempt; on a
failure whose code is not `57P01` it re-raises immediately after exactly
that one attempt, waiting for nothing and regardless of what later
attempts would have produced; on a `57P01` failure it waits
`attempt × 1000` ms and retries, up to 3 total attempts, the third
failure being raised whatever its code. -/
theorem claim_C2_selective_query_retry {T : Type} (bk : Backing)
    (w : World) (p d : Nat) (op : Nat → Except DbError T)
    (hp : w.pool = some p) (hd : w.db = some d) :
    (∀ v, op 1 = Except.ok v →
      queryWithRetry bk op 3 w = (Except.ok v, w)) ∧
    (∀ e, op 1 = Except.error e → e.code ≠ "57P01" →
      queryWithRetry bk op 3 w = (Except.error e, w)) ∧
    (∀ e1 v, op 1 = Except.error e1 → e1.code = "57P01" →
      op 2 = Except.ok v →
      queryWithRetry bk op 3 w
        = (Except.ok v, { w with sleeps := w.sleeps ++ [1000] })) ∧
    (∀ e1 e2, op 1 = Except.error e1 → e1.code = "57P01" →
      op 2 = Except.error e2 → e2.code ≠ "57P01" →
      queryWithRetry bk op 3 w
        = (Except.error e2, { w with sleeps := w.sleeps ++ [1000] })) ∧
    (∀ e1 e2 v, op 1 = Except.error e1 → e1.code = "57P01" →
      op 2 = Except.error e2 → e2.code = "57P01" → op 3 = Except.ok v →
      queryWithRetry bk op 3 w
        = (Except.ok v, { w with sleeps := w.sleeps ++ [1000, 2000] })) ∧
    (∀ e1 e2 e3, op 1 = Except.error e1 → e1.code = "57P01" →
      op 2 = Except.error e2 → e2.code = "57P01" →
      op 3 = Except.error e3 →
      queryWithRetry bk op 3 w
        = (Except.error e3, { w with sleeps := w.sleeps ++ [1000, 2000] })) := by
  have hstart : queryWithRetry bk op 3 w = queryGo bk op 3 1 (2 + 1) none w :=
    rfl
  refine ⟨?_, ?_, ?_, ?_, ?_, ?_⟩
  · intro v h1
    exact hstart.trans (queryGo_ok bk op 3 1 2 none w p d v hp hd h1)
  · intro e h1 hcode
    exact hstart.trans
      (queryGo_stop bk op 3 1 2 none w p d e hp hd h1 (fun hc => hcode hc.2))
  · intro e1 v h1 hc1 h2
    have hr1 := queryGo_retry bk op 3 1 2 none w p d e1 hp hd h1
      ⟨by decide, hc1⟩
    have hs := queryGo_ok bk op 3 (1 + 1) 1 (some e1)
      { w with sleeps := w.sleeps ++ [1000 * 1] } p d v hp hd h2
    exact hstart.trans (hr1.trans hs)
  · intro e1 e2 h1 hc1 h2 hcode
    have hr1 := queryGo_retry bk op 3 1 2 none w p d e1 hp hd h1
      ⟨by decide, hc1⟩
    have hs := queryGo_stop bk op 3 (1 + 1) 1 (some e1)
      { w with sleeps := w.sleeps ++ [1000 * 1] } p d e2 hp hd h2
      (fun hc => hcode hc.2)
    exact hstart.trans (hr1.trans hs)
  · intro e1 e2 v h1 hc1 h2 hc2 h3
    have hr1 := queryGo_retry bk op 3 1 2 none w p d e1 hp hd h1
      ⟨by decide, hc1⟩
    have hr2 := queryGo_retry bk op 3 (1 + 1) 1 (some e1)
      { w with sleeps := w.sleeps ++ [1000 * 1] } p d e2 hp hd h2
      ⟨by decide, hc2⟩
    have hs := queryGo_ok bk op 3 (1 + 1 + 1) 0 (some e2)
      { { w with sleeps := w.sleeps ++ [1000 * 1] } with
          sleeps := ({ w with sleeps := w.sleeps ++ [1000 * 1] }).sleeps
            ++ [1000 * (1 + 1)] } p d v hp hd h3
    have hfull := hstart.trans (hr1.trans (hr2.trans hs))
    rw [hfull]
    simp
  · intro e1 e2 e3 h1 hc1 h2 hc2 h3
    have hr1 := queryGo_retry bk op 3 1 2 none w p d e1 hp hd h1
      ⟨by decide, hc1⟩
    have hr2 := queryGo_retry bk op 3 (1 + 1) 1 (some e1)
      { w with sleeps := w.sleeps ++ [1000 * 1] } p d e2 hp hd h2
      ⟨by decide, hc2⟩
    have hs := queryGo_stop bk op 3 (1 + 1 + 1) 0 (some e2)
      { { w with sleeps := w.sleeps ++ [1000 * 1] } with
          sleeps := ({ w with sleeps := w.sleeps ++ [1000 * 1] }).sleeps
            ++ [1000 * (1 + 1)] } p d e3 hp hd h3
      (fun hc => by omega)
    have hfull := hstart.trans (hr1.trans (hr2.trans hs))
    rw [hfull]
    simp

/-- The operation used in the C2 witness: two `57P01` (admin shutdown)
failures, then success. -/
def adminShutdownTwice : Nat → Except DbError Nat := fun a =>
  if a ≤ 2 then Except.error { code := "57P01", msg := "admin shutdown" }
  else Except.ok 42

/-- Concrete run of the C2 theorem: two admin-shutdown failures then a
success gives overall success after 3 attempts with waits of 1000 ms
and 2000 ms. -/
theorem claim_C2_witness :
    queryWithRetry healthyBk adminShutdownTwice 3 readyWorld
      = (Except.ok 42,
         { readyWorld with sleeps := readyWorld.sleeps ++ [1000, 2000] }) :=
  (claim_C2_selective_query_retry healthyBk readyWorld 0 0
      adminShutdownTwice rfl rfl).2.2.2.2.1
    { code := "57P01", msg := "admin shutdown" }
    { code := "57P01", msg := "admin shutdown" } 42 rfl rfl rfl rfl rfl

/-- Claim C1: a run of `initializeDatabase` with no valid stored pair
makes up to 3 attempts, each constructing a pool and testing it with a
liveness query; it waits `attempt × 1000` ms after each failed non-final
attempt (1000 ms after attempt 1, 2000 ms after attempt 2), returns the
new pair as soon as any attempt succeeds, and if all 3 attempts fail it
raises the last failure after exactly 3 attempts — not fewer, not more —
leaving the stored pair unassigned. -/
theorem claim_C1_bounded_retry (bk : Backing) (w : World)
    (hw : w.pool = none ∨ w.db = none) :
    (∀ u, attempt1Res bk w = Except.ok u →
      (initializeDatabase bk w).1 = Except.ok (w.nextPoolId, w.nextPoolId) ∧
      (initializeDatabase bk w).2.pool = some w.nextPoolId ∧
      (initializeDatabase bk w).2.db = some w.nextPoolId ∧
      (initializeDatabase bk w).2.poolsConstructed = w.poolsConstructed + 1 ∧
      (initializeDatabase bk w).2.sleeps = w.sleeps) ∧
    (∀ e1 u, attempt1Res bk w = Except.error e1 →
      attempt2Res bk w = Except.ok u →
      (initializeDatabase bk w).1
        = Except.ok (w.nextPoolId + 1, w.nextPoolId + 1) ∧
      (initializeDatabase bk w).2.pool = some (w.nextPoolId + 1) ∧
      (initializeDatabase bk w).2.db = some (w.nextPoolId + 1) ∧
      (initializeDatabase bk w).2.poolsConstructed = w.poolsConstructed + 2 ∧
      (initializeDatabase bk w).2.sleeps = w.sleeps ++ [1000]) ∧
    (∀ e1 e2 u, attempt1Res bk w = Except.error e1 →
      attempt2Res bk w = Except.error e2 →
      attempt3Res bk w = Except.ok u →
      (initializeDatabase bk w).1
        = Except.ok (w.nextPoolId + 2, w.nextPoolId + 2) ∧
      (initializeDatabase bk w).2.pool = some (w.nextPoolId + 2) ∧
      (initializeDatabase bk w).2.db = some (w.nextPoolId + 2) ∧
      (initializeDatabase bk w).2.poolsConstructed = w.poolsConstructed + 3 ∧
      (initializeDatabase bk w).2.sleeps = w.sleeps ++ [1000, 2000]) ∧
    (∀ e1 e2 e3, attempt1Res bk w = Except.error e1 →
      attempt2Res bk w = Except.error e2 →
      attempt3Res bk w = Except.error e3 →
      (initializeDatabase bk w).1 = Except.error e3 ∧
      (initializeDatabase bk w).2.poolsConstructed = w.poolsConstructed + 3 ∧
      (initializeDatabase bk w).2.sleeps = w.sleeps ++ [1000, 2000] ∧
      (initializeDatabase bk w).2.pool = w.pool ∧
      (initializeDatabase bk w).2.db = w.db) := by
  have hrun : initializeDatabase bk w = initGo bk 1 (2 + 1) w := by
    rcases hpl : w.pool with _ | pv
    · simp [initializeDatabase, hpl, maxConnectionRetries]
    · rcases hdb : w.db with _ | dv
      · simp [initializeDatabase, hpl, hdb, maxConnectionRetries]
      · rcases hw with h | h
        · rw [hpl] at h; exact Option.noConfusion h
        · rw [hdb] at h; exact Option.noConfusion h
  refine ⟨?_, ?_, ?_, ?_⟩
  · intro u h1
    cases u
    have hfull := hrun.trans (initGo_succ_of_ok bk 1 2 w h1)
    rw [hfull]
    simp [successWorld]
  · intro e1 u h1 h2
    cases u
    have hr1 := initGo_retry_of_error bk 1 2 w e1 (by decide) h1
    have hs := initGo_succ_of_ok bk (1 + 1) 1
      { failWorld bk w with sleeps := w.sleeps ++ [connectionRetryDelay * 1] }
      h2
    have hfull := hrun.trans (hr1.trans hs)
    rw [hfull]
    simp [successWorld, failWorld, connectionRetryDelay]
  · intro e1 e2 u h1 h2 h3
    cases u
    have hr1 := initGo_retry_of_error bk 1 2 w e1 (by decide) h1
    have hr2 := initGo_retry_of_error bk (1 + 1) 1
      { failWorld bk w with sleeps := w.sleeps ++ [connectionRetryDelay * 1] }
      e2 (by decide) h2
    have hs := initGo_succ_of_ok bk (1 + 1 + 1) 0
      { failWorld bk
          { failWorld bk w with
              sleeps := w.sleeps ++ [connectionRetryDelay * 1] } with
          sleeps := ({ failWorld bk w with
              sleeps := w.sleeps ++ [connectionRetryDelay * 1] }).sleeps
            ++ [connectionRetryDelay * (1 + 1)] }
      h3
    have hfull := hrun.trans (hr1.trans (hr2.trans hs))
    rw [hfull]
    simp [successWorld, failWorld, connectionRetryDelay]
  · intro e1 e2 e3 h1 h2 h3
    have hr1 := initGo_retry_of_error bk 1 2 w e1 (by decide) h1
    have hr2 := initGo_retry_of_error bk (1 + 1) 1
      { failWorld bk w with sleeps := w.sleeps ++ [connectionRetryDelay * 1] }
      e2 (by decide) h2
    have hs := initGo_fatal_of_error bk (1 + 1 + 1) 0
      { failWorld bk
          { failWorld bk w with
              sleeps := w.sleeps ++ [connectionRetryDelay * 1] } with
          sleeps := ({ failWorld bk w with
              sleeps := w.sleeps ++ [connectionRetryDelay * 1] }).sleeps
            ++ [connectionRetryDelay * (1 + 1)] }
      e3 (by decide) h3
    have hfull := hrun.trans (hr1.trans (hr2.trans hs))
    rw [hfull]
    simp [failWorld, connectionRetryDelay]

/-- A suspended execution of `initializeDatabase` in the event loop,
between `await` points.  `ready`: about to run the synchronous prefix
(fast-path check, `new Pool`, issue `connect()`).  `awaitConnect`:
suspended at `await newPool.connect()` (the pool identity and the
oracle index of the pending connect are recorded).  `awaitQuery`:
suspended at `await client.query('SELECT NOW()')`.  `sleeping`:
suspended in the backoff `setTimeout`, about to run the given attempt.
`finished`: the call returned or threw. -/
inductive TaskPC where
  | ready : TaskPC
  | awaitConnect (attempt pid cidx : Nat) : TaskPC
  | awaitQuery (attempt pid qidx : Nat) : TaskPC
  | sleeping (attempt : Nat) : TaskPC
  | finished (res : Except DbError (Nat × Nat)) : TaskPC

/-- Synchronous prefix of one retry-loop iteration: evaluate
`new Pool(poolConfig)` and issue the `connect()` call, suspending at
its `await`. -/
def beginAttempt (a : Nat) (w : World) : TaskPC × World :=
  (TaskPC.awaitConnect a w.nextPoolId w.connectCalls,
   { w with nextPoolId := w.nextPoolId + 1,
            poolsConstructed := w.poolsConstructed + 1,
            connectCalls := w.connectCalls + 1 })

/-- The `catch` block of the retry loop: increment `connectionRetries`;
schedule the backoff timer when attempts remain, otherwise finish by
rethrowing. -/
def failAttempt (a : Nat) (e : DbError) (w : World) : TaskPC × World :=
  let w1 : World := { w with connectionRetries := w.connectionRetries + 1 }
  if a < maxConnectionRetries then
    (TaskPC.sleeping (a + 1),
     { w1 with sleeps := w1.sleeps ++ [connectionRetryDelay * a] })
  else
    (TaskPC.finished (Except.error e), w1)

/-- One event-loop step of a suspended `initializeDatabase` call: run
its next synchronous segment against the shared state `w`. -/
def stepTask (bk : Backing) (pc : TaskPC) (w : World) : TaskPC × World :=
  match pc with
  | TaskPC.ready =>
    match w.pool, w.db with
    | some p, some d => (TaskPC.finished (Except.ok (p, d)), w)
    | _, _ => beginAttempt 1 w
  | TaskPC.awaitConnect a pid cidx =>
    match bk.connectRes cidx with
    | Except.error e => failAttempt a e w
    | Except.ok _ =>
      (TaskPC.awaitQuery a pid w.queryCalls,
       { w with queryCalls := w.queryCalls + 1 })
  | TaskPC.awaitQuery a pid qidx =>
    match bk.queryRes qidx with
    | Except.ok _ =>
      (TaskPC.finished (Except.ok (pid, pid)),
       { w with pool := some pid, db := some pid, connectionRetries := 0 })
    | Except.error e => failAttempt a e w
  | TaskPC.sleeping a => beginAttempt a w
  | TaskPC.finished r => (TaskPC.finished r, w)

/-- Run a list of concurrent `initializeDatabase` calls under an
explicit schedule: each entry of `sched` names the task whose next
segment the event loop runs. -/
def runSched (bk : Backing) : List Nat → List TaskPC × World →
    List TaskPC × World
  | [], cfg => cfg
  | i :: rest, (tasks, w) =>
    match tasks[i]? with
    | none => runSched bk rest (tasks, w)
    | some pc =>
      let s := stepTask bk pc w
      runSched bk rest (tasks.set i s.1, s.2)

/-- Claim C6 (counterexample): two `initialize()` calls racing from the
uninitialized state against a healthy store, interleaved so that both
pass the `if (pool && db)` check before either stores a pool, construct
TWO pools, run TWO liveness queries, and return DIFFERENT pool/client
references (identities 0 and 1) — the second overwriting the first in
the stored state.  The fast-path check alone does not give the
exactly-once property. -/
theorem claim_C6_counterexample :
    runSched healthyBk [0, 1, 0, 0, 1, 1]
        ([TaskPC.ready, TaskPC.ready], initialWorld)
      = ([TaskPC.finished (Except.ok (0, 0)),
          TaskPC.finished (Except.ok (1, 1))],
         { pool := some 1, db := some 1, connectionRetries := 0,
           nextPoolId := 2, poolsConstructed := 2, connectCalls := 2,
           queryCalls := 2, sleeps := [] }) := rfl

/-- `n` sequential `initializeDatabase` calls from the fresh state:
returns the list of results and the final state. -/
def seqInits (bk : Backing) : Nat → List (Except DbError (Nat × Nat)) × World
  | 0 => ([], initialWorld)
  | n + 1 =>
    let prev := seqInits bk n
    let step := initializeDatabase bk prev.2
    (prev.1 ++ [step.1], step.2)

theorem seqInits_healthy_closed (n : Nat) :
    seqInits healthyBk (n + 1)
      = (List.replicate (n + 1) (Except.ok (0, 0)), firstInitWorld) := by
  induction n with
  | zero => rfl
  | succ m ih =>
    show (let prev := seqInits healthyBk (m + 1)
          let step := initializeDatabase healthyBk prev.2
          (prev.1 ++ [step.1], step.2))
        = (List.replicate (m + 1 + 1) (Except.ok (0, 0)), firstInitWorld)
    rw [ih]
    simp [List.replicate_succ']
    exact ⟨rfl, rfl⟩

/-- Claim C6 (amended): when the `initialize()` calls do not overlap —
each runs to completion before the next begins — any number of calls
from the uninitialized state against a healthy store construct exactly
one pool and run exactly one liveness query, and every caller receives
the same pool/client reference (identity 0).  The exactly-once property
holds for sequential callers only; interleaved first callers can
duplicate construction. -/
theorem claim_C6_sequential_exactly_once (n : Nat) :
    (seqInits healthyBk (n + 1)).2.poolsConstructed = 1 ∧
    (seqInits healthyBk (n + 1)).2.queryCalls = 1 ∧
    (seqInits healthyBk (n + 1)).2.pool = some 0 ∧
    ∀ r, r ∈ (seqInits healthyBk (n + 1)).1 → r = Except.ok (0, 0) := by
  rw [seqInits_healthy_closed n]
  refine ⟨rfl, rfl, rfl, ?_⟩
  intro r hr
  exact List.eq_of_mem_replicate hr

/-- Concrete run of the C6 amended theorem: three sequential calls, one
pool, one liveness query, all results identical. -/
theorem claim_C6_witness :
    (seqInits healthyBk 3).2.poolsConstructed = 1 ∧
    (seqInits healthyBk 3).2.queryCalls = 1 ∧
    (seqInits healthyBk 3).2.pool = some 0 ∧
    Except.ok ((0 : Nat), (0 : Nat)) ∈ (seqInits healthyBk 3).1 ∧
    (Except.ok ((0 : Nat), (0 : Nat)) : Except DbError (Nat × Nat))
      = Except.ok (0, 0) := by
  have h := claim_C6_sequential_exactly_once 2
  have hm : (Except.ok ((0 : Nat), (0 : Nat)) : Except DbError (Nat × Nat))
      ∈ (seqInits healthyBk 3).1 := by
    rw [show (seqInits healthyBk 3).1
          = [Except.ok (0, 0), Except.ok (0, 0), Except.ok (0, 0)] from rfl]
    exact List.mem_cons_self _ _
  exact ⟨h.1, h.2.1, h.2.2.1, hm, h.2.2.2 _ hm⟩

/-- Concrete run of the C1 theorem: against an always-refusing store,
`initializeDatabase` raises the connection error after exactly 3 pool
constructions with waits of 1000 ms and 2000 ms, leaving the stored
pair unassigned. -/
theorem claim_C1_witness :
    (initializeDatabase failBk initialWorld).1 = Except.error refusedError ∧
    (initializeDatabase failBk initialWorld).2.poolsConstructed
      = initialWorld.poolsConstructed + 3 ∧
    (initializeDatabase failBk initialWorld).2.sleeps
      = initialWorld.sleeps ++ [1000, 2000] ∧
    (initializeDatabase failBk initialWorld).2.pool = initialWorld.pool ∧
    (initializeDatabase failBk initialWorld).2.db = initialWorld.db :=
  (claim_C1_bounded_retry failBk initialWorld (Or.inl rfl)).2.2.2
    refusedError refusedError refusedError rfl rfl rfl

end XSign
